import Mathlib

/-!
Shallow embedding of `src/alburnum/maas/flesh.py` ("Commands for interacting
with a remote MAAS"): the command-registration/dispatch core, the profile
store operations, and the listing commands, together with theorems settling
the specification claims about them.

Conventions of the embedding:
* Python `None` is `Option.none` (for credentials) or `Cell.null` (for table
  cells).
* Python exceptions that a piece of code can raise are modelled with
  `Except`/explicit result constructors; `SystemExit(code)` is
  `MainResult.exit code diag` where `diag` is the list of lines printed to
  the diagnostic stream (stderr).
* External collaborators (the `bones.SessionAPI` session, the origin object
  model, terminal rendering) enter as explicit function arguments or as the
  input lists the commands iterate over.
* Repository modules that are referenced but whose code is not part of
  `flesh.py` (`alburnum.maas.utils`, `alburnum.maas.auth`,
  `alburnum.maas.creds`) are modelled from the spec where needed; each such
  definition says so in its doc comment.
-/

/-- Credentials are the opaque 3-part secret tuple (consumer key, token,
token secret).  Modelled from the spec: `alburnum.maas.creds.Credentials`
(not under `src/`) is the 3-component credentials tuple type. -/
def Credentials : Type := String × String × String

instance : DecidableEq Credentials := by
  unfold Credentials
  infer_instance

/-- A table cell as accepted by `prep`: Python `None`, a `str`, or any other
value (the listing commands only ever pass numbers as non-string cells). -/
inductive Cell where
  | null
  | str (s : String)
  | num (n : Nat)
deriving DecidableEq

/-- Embedding of `prep` (flesh.py line 45): `None` becomes the empty string,
strings pass through, anything else is rendered with `str(...)`. -/
def prep : Cell → String
  | Cell.null => ""
  | Cell.str s => s
  | Cell.num n => toString n

/-- Embedding of `prep_table` (flesh.py line 54): ensure the data is a list
of lists of strings. -/
def prep_table (data : List (List Cell)) : List (List String) :=
  data.map (fun row => row.map prep)

/-- Embedding of `print_table` (flesh.py line 75) at the level of content:
the rendering backend (`terminaltables`, an external library) draws exactly
the rows produced by `prep_table`, so the printed table's cell contents are
`prep_table data`. -/
def print_table (data : List (List Cell)) : List (List String) :=
  prep_table data

/-- Embedding of the stub `check_valid_apikey` (flesh.py line 32): its whole
body is `return True`; it ignores all three arguments and cannot raise. -/
def check_valid_apikey (_url : String) (_credentials : Credentials)
    (_insecure : Bool) : Bool :=
  true

/-! ### The `ArgumentParser` specialisation -/

/-- A registered subcommand's parser, as created by
`parser.subparsers.add_parser(name, help=help_title, description=help_title,
epilog=help_body)` in `Command.register` (flesh.py line 146). -/
structure CommandParser where
  prog : String
  help : String
  description : String
  epilog : String
deriving DecidableEq

/-- The lines a subcommand parser's own `print_help` would emit, at the
granularity this model keeps: its description and its epilog (its usage line
mentions only its own name and flags, never the other commands). -/
def CommandParser.helpLines (c : CommandParser) : List String :=
  [c.description, c.epilog]

/-- The child-registration facility created by the `subparsers` property
(flesh.py line 95): the underlying argparse subparsers action with
`title="drill down"`, whose `metavar` is then set to `"COMMAND"`, holding the
mapping from command name to the command's parser in registration order. -/
structure Subparsers where
  title : String
  metavar : Option String
  commands : List (String × CommandParser)
deriving DecidableEq

/-- Embedding of `ArgumentParser` (flesh.py line 79).  `cachedSubparsers`
models the private `self.__subparsers` attribute: `Option.none` is the state
in which reading the attribute raises `AttributeError` (the attribute was
never assigned). -/
structure ArgumentParser where
  description : String
  epilog : String
  cachedSubparsers : Option Subparsers
deriving DecidableEq

/-- Embedding of `ArgumentParser.__init__` (flesh.py line 86): it only fills
in a default `formatter_class` (a help-formatting detail not modelled) and
delegates to argparse; in particular it does not assign `self.__subparsers`,
so a fresh node holds no child-registration facility. -/
def ArgumentParser.new (description epilog : String) : ArgumentParser :=
  { description := description, epilog := epilog,
    cachedSubparsers := Option.none }

/-- Embedding of the overridden one-shot `add_subparsers` (flesh.py line
91): it unconditionally raises `NotImplementedError`. -/
def ArgumentParser.add_subparsers (_p : ArgumentParser) :
    Except String Subparsers :=
  Except.error "add_subparsers has been disabled"

/-- The facility the `subparsers` property builds on first access (flesh.py
lines 100-102): the parent class's subparsers action with title
"drill down", whose metavar is set to "COMMAND", initially empty. -/
def newSubparsers : Subparsers :=
  { title := "drill down", metavar := some "COMMAND", commands := [] }

/-- Embedding of the lazy `subparsers` property (flesh.py line 95): return
the cached facility if `self.__subparsers` exists, otherwise create it via
the parent class, cache it, and return it.  The returned parser is the
post-access state of the node. -/
def ArgumentParser.subparsers (p : ArgumentParser) :
    Subparsers × ArgumentParser :=
  match p.cachedSubparsers with
  | some sp => (sp, p)
  | Option.none =>
      (newSubparsers, { p with cachedSubparsers := some newSubparsers })

/-! ### Command naming and registration -/

/-- Embedding of Python `str.lower()` / single-character `str.replace` as
used by `Command.name`: with a one-character pattern and one-character
replacement, `replace("_", "-")` substitutes per character, and `.lower()`
lowercases per character (command class identifiers are ASCII). -/
def pyReplaceUnderscoreAndLower (s : String) : String :=
  String.mk ((s.data.map (fun c => if c = '_' then '-' else c)).map
    Char.toLower)

/-- Embedding of the classmethod `Command.name` (flesh.py line 132):
`name = cls.__name__.replace("_", "-").lower()` followed by
`name = name[4:] if name.startswith("cmd-") else name` (Python string
slicing and startswith, expressed on the character sequence). -/
def Command.name (clsName : String) : String :=
  let name := pyReplaceUnderscoreAndLower clsName
  if "cmd-".data.isPrefixOf name.data then String.mk (name.data.drop 4)
  else name

/-- The name under which `Command.register` (flesh.py line 146) registers a
command: `cls.name() if name is None else name`. -/
def registeredNameChoice (clsName : String) (nameArg : Option String) :
    String :=
  match nameArg with
  | Option.none => Command.name clsName
  | some n => n

/-- A command class as `Command.register` consumes it: its Python
`__name__` and its declared documentation, already split into the one-line
title and the body.  Modelled from the spec: `utils.parse_docstring`
(module `alburnum.maas.utils`, not under `src/`) extracts a one-line help
summary and a longer help body from the command's declared documentation. -/
structure CommandClass where
  clsName : String
  docTitle : String
  docBody : String
deriving DecidableEq

/-- Embedding of the classmethod `Command.register` (flesh.py line 139):
split the docstring, access the parent's lazy `subparsers` facility, and add
a parser named `cls.name() if name is None else name` with
`help=help_title, description=help_title, epilog=help_body`.  Adding the
parser records it in the facility's command mapping (a fresh key appended in
registration order). -/
def Command.register (cls : CommandClass) (nameArg : Option String)
    (parser : ArgumentParser) : ArgumentParser :=
  let help_title := cls.docTitle
  let help_body := cls.docBody
  let (sp, parser₁) := parser.subparsers
  let nm := registeredNameChoice cls.clsName nameArg
  let commandNode : CommandParser :=
    { prog := nm, help := help_title, description := help_title,
      epilog := help_body }
  { parser₁ with
      cachedSubparsers :=
        some { sp with commands := sp.commands ++ [(nm, commandNode)] } }

/-! ### The concrete command classes registered by `prepare_parser` -/

/-- `cmd_login` (flesh.py line 152) as a registrable class. -/
def cmd_login_cls : CommandClass :=
  { clsName := "cmd_login",
    docTitle :=
      "Log in to a remote API, and remember its description and credentials.",
    docBody :=
      "If credentials are not provided on the command-line, they will be " ++
      "prompted for interactively." }

/-- `cmd_logout` (flesh.py line 230) as a registrable class. -/
def cmd_logout_cls : CommandClass :=
  { clsName := "cmd_logout",
    docTitle := "Log out of a remote API, purging any stored credentials.",
    docBody :=
      "This will remove the given profile from your command-line  client.  " ++
      "You can re-create it by logging in again later." }

/-- `cmd_list_profiles` (flesh.py line 250) as a registrable class. -/
def cmd_list_profiles_cls : CommandClass :=
  { clsName := "cmd_list_profiles",
    docTitle := "List remote APIs that have been logged-in to.",
    docBody := "" }

/-- `cmd_refresh_profiles` (flesh.py line 268) as a registrable class. -/
def cmd_refresh_profiles_cls : CommandClass :=
  { clsName := "cmd_refresh_profiles",
    docTitle := "Refresh the API descriptions of all profiles.",
    docBody :=
      "This retrieves the latest version of the help information for each " ++
      "profile.  Use it to update your command-line client's information " ++
      "after an upgrade to the MAAS server." }

/-- `cmd_list_nodes` (flesh.py line 302) as a registrable class. -/
def cmd_list_nodes_cls : CommandClass :=
  { clsName := "cmd_list_nodes", docTitle := "List nodes.", docBody := "" }

/-- `cmd_list_tags` (flesh.py line 362) as a registrable class. -/
def cmd_list_tags_cls : CommandClass :=
  { clsName := "cmd_list_tags", docTitle := "List tags.", docBody := "" }

/-- `cmd_list_files` (flesh.py line 375) as a registrable class. -/
def cmd_list_files_cls : CommandClass :=
  { clsName := "cmd_list_files", docTitle := "List files.", docBody := "" }

/-- `cmd_list_users` (flesh.py line 385) as a registrable class. -/
def cmd_list_users_cls : CommandClass :=
  { clsName := "cmd_list_users", docTitle := "List users.", docBody := "" }

/-- Embedding of `prepare_parser` (flesh.py line 414): create the root
parser and register the eight commands, each without an explicit name (the
`--debug` flag it also declares is carried separately by the dispatch
model). -/
def prepareParser : ArgumentParser :=
  let parser := ArgumentParser.new "Interact with a remote MAAS server."
    "http://maas.ubuntu.com/"
  let parser := Command.register cmd_login_cls Option.none parser
  let parser := Command.register cmd_logout_cls Option.none parser
  let parser := Command.register cmd_list_profiles_cls Option.none parser
  let parser := Command.register cmd_refresh_profiles_cls Option.none parser
  let parser := Command.register cmd_list_nodes_cls Option.none parser
  let parser := Command.register cmd_list_tags_cls Option.none parser
  let parser := Command.register cmd_list_files_cls Option.none parser
  let parser := Command.register cmd_list_users_cls Option.none parser
  parser

/-- The names registered on a parser, in registration order. -/
def registeredNames (p : ArgumentParser) : List String :=
  match p.cachedSubparsers with
  | some sp => sp.commands.map Prod.fst
  | Option.none => []

/-- The registered subcommand parser for a given name, if any. -/
def registeredCommandParser (p : ArgumentParser) (nm : String) :
    Option CommandParser :=
  match p.cachedSubparsers with
  | some sp => sp.commands.lookup nm
  | Option.none => Option.none

/-- Abstract rendering of argparse's `print_help` for the root parser: the
help text shows the program description, then (because every command is
registered with a `help=` title) one entry per registered subcommand in the
"drill down" section, naming the command, and finally the epilog.  Layout
details (usage line, indentation, the help titles next to the names) are
abstracted away; what the model keeps is which lines carry the registered
command names. -/
def ArgumentParser.helpLines (p : ArgumentParser) : List String :=
  p.description :: registeredNames p ++ [p.epilog]

/-! ### The dispatch model (`main`, flesh.py line 439) -/

/-- What executing the resolved handler does, from the dispatcher's point of
view: it returns normally, it is interrupted (`KeyboardInterrupt`), or it
raises an exception whose `"%s" % error` rendering is `msg`. -/
inductive HandlerOutcome where
  | success
  | keyboardInterrupt
  | failure (msg : String)
deriving DecidableEq

/-- The possible outcomes of `parser.parse_args(argv[1:])` together with the
handler behaviour for the resolved command:
* `usageError helpOfErring msg`: argparse detected bad usage; the parser
  that detected it (root or subcommand, both instances of the overridden
  `ArgumentParser`) called its `error` method, which prints that parser's
  help (`helpOfErring`), a blank line and `msg`, and raises `SystemExit(2)`
  — `SystemExit` is not an `Exception`, so the `try` in `main` does not
  intercept it;
* `noCommand`: parsing succeeded but no subcommand was named, so the options
  bundle has no `execute` attribute;
* `interrupted`: a `KeyboardInterrupt` arrived inside the `try` block before
  the handler finished resolving;
* `command resolved debug run`: the path resolved to the subcommand parser
  `resolved`, the global `--debug` flag parsed to `debug`, and executing the
  handler behaves as `run`. -/
inductive ParseOutcome where
  | usageError (helpOfErring : List String) (msg : String)
  | noCommand
  | interrupted
  | command (resolved : CommandParser) (debug : Bool) (run : HandlerOutcome)

/-- The observable result of one process invocation: `exit code diag` for a
`SystemExit(code)` (or a normal return, `exit 0 []`) with `diag` the lines
printed to the diagnostic stream, or `raise msg` for an exception that
propagates out of `main` (the interpreter then prints a full traceback
containing `msg` and terminates the process). -/
inductive MainResult where
  | exit (code : Nat) (diag : List String)
  | raise (msg : String)
deriving DecidableEq

/-- Embedding of the overridden `ArgumentParser.error` (flesh.py line 105):
print this parser's help to stderr, a blank line, then the message, and
raise `SystemExit(2)`. -/
def ArgumentParser.error (p : ArgumentParser) (message : String) :
    MainResult :=
  MainResult.exit 2 (p.helpLines ++ ["", message])

/-- Embedding of `main` (flesh.py line 439), parametric in the parse
outcome.  `p` is the root parser built by `prepare_parser`; note that the
`except Exception` arm calls `parser.error` on this root parser, not on the
resolved command's parser.  (Lean reserves the bare name `main` for an
executable entry point, hence the `Flesh` prefix.) -/
def Flesh.main (p : ArgumentParser) (parse : ParseOutcome) : MainResult :=
  match parse with
  | ParseOutcome.usageError helpOfErring msg =>
      MainResult.exit 2 (helpOfErring ++ ["", msg])
  | ParseOutcome.noCommand => p.error "No arguments given."
  | ParseOutcome.interrupted => MainResult.exit 1 []
  | ParseOutcome.command _resolved debug run =>
      match run with
      | HandlerOutcome.success => MainResult.exit 0 []
      | HandlerOutcome.keyboardInterrupt => MainResult.exit 1 []
      | HandlerOutcome.failure msg =>
          if debug then MainResult.raise msg else p.error msg

/-- The process exit status a `MainResult` produces: the `SystemExit` code,
or 1 for an exception that propagates out of `main` (CPython terminates with
status 1 after printing the traceback of an uncaught exception). -/
def processExitCode : MainResult → Nat
  | MainResult.exit code _ => code
  | MainResult.raise _ => 1

/-- The diagnostic-stream lines of a `MainResult` (for a propagated
exception, the traceback; the model keeps only the message line). -/
def mainDiag : MainResult → List String
  | MainResult.exit _ diag => diag
  | MainResult.raise msg => [msg]

/-! ### The credential check inside `cmd_login.__call__` -/

/-- How the credential-checking prologue of `cmd_login.__call__` (flesh.py
lines 190-198) ends: either it raises `SystemExit(msg)` (Python exits with
status 1 after printing a string `SystemExit` argument to stderr), or it
falls through to establishing the session with the given credentials.  The
`except CallError` arm of the source cannot fire because
`check_valid_apikey`'s body is `return True` and never raises. -/
inductive LoginCheck where
  | exitWith (msg : String)
  | proceed (credentials : Option Credentials)
deriving DecidableEq

/-- Does a `LoginCheck` terminate the command with its own `SystemExit`? -/
def LoginCheck.exits : LoginCheck → Bool
  | LoginCheck.exitWith _ => true
  | LoginCheck.proceed _ => false

/-- Embedding of the credential check in `cmd_login.__call__` (flesh.py
lines 190-198): when credentials were obtained, validate them with
`check_valid_apikey` and exit with "The MAAS server rejected your API key."
if invalid; otherwise (or when no credentials were given) proceed to
`bones.SessionAPI.fromURL`. -/
def cmd_login_check (url : String) (insecure : Bool)
    (credentials : Option Credentials) : LoginCheck :=
  match credentials with
  | Option.none => LoginCheck.proceed Option.none
  | some c =>
      if check_valid_apikey url c insecure then
        LoginCheck.proceed (some c)
      else
        LoginCheck.exitWith "The MAAS server rejected your API key."

/-! ### The profile store and the profile commands -/

/-- A stored profile, with the fields `cmd_login.__call__` writes (flesh.py
lines 204-210): credentials (None for anonymous access), the cached
capability description (kept abstract as a string), the profile's own name
and the remote URL. -/
structure Profile where
  credentials : Option Credentials
  description : String
  name : String
  url : String
deriving DecidableEq

/-- The profile store contents, as the `with ProfileConfig.open() as config`
handle exposes them.  Modelled from the spec: `utils.ProfileConfig` (module
`alburnum.maas.utils`, not under `src/`) is a persisted mapping from profile
name to profile; a Python dict is modelled as an association list with
distinct keys in insertion order (`for name in config` iterates the keys,
`config[name]` reads, `config[name] = p` replaces in place). -/
def ProfileStore : Type := List (String × Profile)

instance : DecidableEq ProfileStore := by
  unfold ProfileStore
  infer_instance

/-- Python dict assignment `config[name] = p` for a key already present:
replace the value, keeping the key's position. -/
def storeWrite (config : ProfileStore) (nm : String) (p : Profile) :
    ProfileStore :=
  config.map (fun entry => if entry.1 = nm then (nm, p) else entry)

/-- Python dict read `config[name]` (total on the keys the commands use,
which always come from iterating the store itself). -/
def storeRead (config : ProfileStore) (nm : String) : Option Profile :=
  config.lookup nm

/-! #### `cmd_list_profiles` (flesh.py line 250) -/

/-- One data row of `cmd_list_profiles`: for the profile named `nm`, a row
`[nm, url, "(anonymous)"]` when the stored credentials are `None`, and
`[nm, url]` otherwise.  The `Option.none` branch of the lookup cannot occur
(the names iterated always come from the store's own keys); it yields a bare
name row so that the function stays total. -/
def profileRow (nm : String) : Option Profile → List String
  | some profile =>
      if profile.credentials = Option.none then
        [nm, profile.url, "(anonymous)"]
      else
        [nm, profile.url]
  | Option.none => [nm]

/-- The data rows of `cmd_list_profiles.__call__` (flesh.py lines 256-263):
iterate `sorted(config)` — the profile names in ascending order — and emit
one row per profile.  Python's `sorted` is embedded as (stable) insertion
sort with `≤` on strings. -/
def cmd_list_profiles_data (config : ProfileStore) : List (List String) :=
  (List.insertionSort (fun a b : String => a ≤ b)
      (config.map Prod.fst)).map
    (fun nm => profileRow nm (storeRead config nm))

/-- The full row list `cmd_list_profiles.__call__` passes to `print_table`:
the header `["Profile name", "URL"]` followed by the data rows. -/
def cmd_list_profiles_rows (config : ProfileStore) : List (List String) :=
  ["Profile name", "URL"] :: cmd_list_profiles_data config

/-- What `cmd_list_profiles.__call__` prints: `print_table` applied to its
rows (which are already strings, so `prep` passes them through). -/
def cmd_list_profiles_output (config : ProfileStore) : List (List String) :=
  print_table ((cmd_list_profiles_rows config).map (fun r => r.map Cell.str))

/-! #### `cmd_refresh_profiles` (flesh.py line 268) -/

/-- Embedding of the body of the `for profile_name in config` loop of
`cmd_refresh_profiles.__call__` (flesh.py lines 278-284) for one profile
name.  `estab` is the external session constructor: the description that
`bones.SessionAPI.fromURL(url, credentials=...).description` yields.

The source re-wraps the stored credentials with `Credentials(*creds)`
before establishing the session; when the stored credentials are `None`
(an anonymous profile, exactly what `cmd_login` stores when no credentials
are supplied) the star-unpacking `Credentials(*None)` raises `TypeError`,
which this embedding returns as `Except.error`. -/
def refreshOneProfile (estab : String → Credentials → String)
    (config : ProfileStore) (nm : String) : Except String ProfileStore :=
  match storeRead config nm with
  | some profile =>
      match profile.credentials with
      | some creds =>
          let session_description := estab profile.url creds
          Except.ok (storeWrite config nm
            { profile with description := session_description })
      | Option.none =>
          Except.error
            "TypeError: argument after * must be an iterable, not NoneType"
  | Option.none => Except.ok config

/-- Embedding of `cmd_refresh_profiles.__call__` (flesh.py line 276): loop
over the profile names in the store; the result is the final store contents
paired with the raised exception, if any.  Per the spec's store contract
(§4.3) the `with ProfileConfig.open()` scope commits its mutations also on
error exit, so the store state reached so far is kept when an iteration
raises. -/
def cmd_refresh_profiles_call (estab : String → Credentials → String)
    (config : ProfileStore) : ProfileStore × Option String :=
  (config.map Prod.fst).foldl
    (fun acc nm =>
      match acc with
      | (cfg, some e) => (cfg, some e)
      | (cfg, Option.none) =>
          match refreshOneProfile estab cfg nm with
          | Except.ok cfg₁ => (cfg₁, Option.none)
          | Except.error e => (cfg, some e))
    (config, Option.none)

/-! ### The origin-bound listing commands (flesh.py lines 302-396) -/

/-- A node record as the origin object model yields it (external
collaborator), with the fields `cmd_list_nodes.execute` reads. -/
structure Node where
  hostname : String
  system_id : String
  architecture : String
  cpus : Nat
  memory : Nat
  substatus_name : String
  power_state : String

/-- A tag record with the fields `cmd_list_tags.execute` reads. -/
structure Tag where
  name : String
  definition : String
  kernel_opts : String
  comment : String

/-- A file record with the field `cmd_list_files.execute` reads. -/
structure RemoteFile where
  filename : String

/-- A user record with the fields `cmd_list_users.execute` reads. -/
structure User where
  username : String
  email : String
  is_admin : Bool

/-- Embedding of `cmd_list_nodes.status_colours` (flesh.py line 305). -/
def status_colours : List (String × String) :=
  [("Commissioning", "autoyellow"),
   ("Failed commissioning", "autored"),
   ("Missing", "red"),
   ("Ready", "autogreen"),
   ("Reserved", "autoblue"),
   ("Allocated", "autoblue"),
   ("Deploying", "autoblue"),
   ("Deployed", "autoblue"),
   ("Broken", "autored"),
   ("Failed deployment", "autored"),
   ("Releasing", "autoblue"),
   ("Releasing failed", "autored"),
   ("Disk erasing", "autoblue"),
   ("Failed disk erasing", "autored")]

/-- Embedding of `cmd_list_nodes.power_colours` (flesh.py line 332). -/
def power_colours : List (String × String) :=
  [("on", "autogreen"), ("error", "autored")]

/-- Python `str.capitalize()`: first character upper-cased, the rest
lower-cased. -/
def pyCapitalize (s : String) : String :=
  match s.data with
  | [] => ""
  | c :: cs => String.mk (c.toUpper :: cs.map Char.toLower)

/-- Embedding of `cmd_list_nodes.colourised_status` (flesh.py line 324);
`colorize` is the external `colorized` helper (terminal-dependent colour
markup rendering). -/
def colourised_status (colorize : String → String) (node : Node) : String :=
  match status_colours.lookup node.substatus_name with
  | some colour =>
      colorize ("\x7b" ++ colour ++ "\x7d" ++ node.substatus_name ++
        "\x7b/" ++ colour ++ "\x7d")
  | Option.none => node.substatus_name

/-- Embedding of `cmd_list_nodes.colourised_power` (flesh.py line 338). -/
def colourised_power (colorize : String → String) (node : Node) : String :=
  match power_colours.lookup node.power_state with
  | some colour =>
      colorize ("\x7b" ++ colour ++ "\x7d" ++ pyCapitalize node.power_state ++
        "\x7b/" ++ colour ++ "\x7d")
  | Option.none => pyCapitalize node.power_state

/-- The first column of a listing row (`operator.itemgetter(0)` applied to
the row tuple); it is always a string in these commands (hostname, tag
name, file name, user name). -/
def rowKey : List Cell → String
  | Cell.str s :: _ => s
  | _ => ""

/-- The comparison `sorted(body, key=itemgetter(0))` sorts by: first column,
ascending. -/
def rowLE (r s : List Cell) : Prop := rowKey r ≤ rowKey s

instance : DecidableRel rowLE := fun r s =>
  inferInstanceAs (Decidable (rowKey r ≤ rowKey s))

instance : IsTotal (List Cell) rowLE :=
  ⟨fun r s => le_total (rowKey r) (rowKey s)⟩

instance : IsTrans (List Cell) rowLE :=
  ⟨fun _ _ _ h₁ h₂ => le_trans h₁ h₂⟩

/-- The row tuple built for one node in `cmd_list_nodes.execute` (flesh.py
lines 352-357). -/
def nodeRow (colorize : String → String) (node : Node) : List Cell :=
  [Cell.str node.hostname, Cell.str node.system_id,
   Cell.str node.architecture, Cell.num node.cpus, Cell.num node.memory,
   Cell.str (colourised_status colorize node),
   Cell.str (colourised_power colorize node)]

/-- Embedding of the body rows of `cmd_list_nodes.execute` (flesh.py line
358): the node rows, sorted by `itemgetter(0)` (Python's stable sort is
embedded as insertion sort). -/
def cmd_list_nodes_body (colorize : String → String) (nodes : List Node) :
    List (List Cell) :=
  List.insertionSort rowLE (nodes.map (nodeRow colorize))

/-- What `cmd_list_nodes.execute` prints: header then sorted body. -/
def cmd_list_nodes_output (colorize : String → String) (nodes : List Node) :
    List (List String) :=
  print_table
    ([Cell.str "Hostname", Cell.str "System ID", Cell.str "Arch",
      Cell.str "#CPUs", Cell.str "RAM", Cell.str "Status",
      Cell.str "Power"] :: cmd_list_nodes_body colorize nodes)

/-- The row tuple built for one tag in `cmd_list_tags.execute` (flesh.py
line 368). -/
def tagRow (tag : Tag) : List Cell :=
  [Cell.str tag.name, Cell.str tag.definition, Cell.str tag.kernel_opts,
   Cell.str tag.comment]

/-- Embedding of the body rows of `cmd_list_tags.execute` (flesh.py line
371): the tag rows, sorted by `itemgetter(0)`. -/
def cmd_list_tags_body (tags : List Tag) : List (List Cell) :=
  List.insertionSort rowLE (tags.map tagRow)

/-- The row tuple built for one file in `cmd_list_files.execute` (flesh.py
line 380). -/
def fileRow (file : RemoteFile) : List Cell :=
  [Cell.str file.filename]

/-- Embedding of the body rows of `cmd_list_files.execute` (flesh.py line
381): the file rows, sorted by `itemgetter(0)`. -/
def cmd_list_files_body (files : List RemoteFile) : List (List Cell) :=
  List.insertionSort rowLE (files.map fileRow)

/-- The row tuple built for one user in `cmd_list_users.execute` (flesh.py
lines 390-393). -/
def userRow (colorize : String → String) (user : User) : List Cell :=
  [Cell.str user.username, Cell.str user.email,
   Cell.str (colorize
     (if user.is_admin then "\x7bautogreen\x7dYes\x7b/autogreen\x7d"
      else "No"))]

/-- Embedding of the body rows of `cmd_list_users.execute` (flesh.py line
395): the user rows, sorted by `itemgetter(0)`. -/
def cmd_list_users_body (colorize : String → String) (users : List User) :
    List (List Cell) :=
  List.insertionSort rowLE (users.map (userRow colorize))

/-- The ascending order on the string rows of `cmd_list_profiles`, keyed by
the first column (the profile name). -/
def rowLES (r s : List String) : Prop := r.headD "" ≤ s.headD ""

instance : DecidableRel rowLES := fun r s =>
  inferInstanceAs (Decidable (r.headD "" ≤ s.headD ""))

instance : IsTotal (List String) rowLES :=
  ⟨fun r s => le_total (r.headD "") (s.headD "")⟩

instance : IsTrans (List String) rowLES :=
  ⟨fun _ _ _ h₁ h₂ => le_trans h₁ h₂⟩

/-! ### Claim-side definitions and concrete inputs used by the theorems -/

/-- The default-naming rule exactly as claim C4 words it: the implementing
type's identifier with underscores replaced by hyphens and lower-cased,
with a leading "cmd-" prefix stripped if present. -/
def claimDefaultName (ident : String) : String :=
  let hyphenated := ident.data.map (fun c => if c = '_' then '-' else c)
  let lowered := hyphenated.map Char.toLower
  if "cmd-".data.isPrefixOf lowered then String.mk (lowered.drop 4)
  else String.mk lowered

/-- The subcommand parser that `prepare_parser` registers for `login`
(used as the concrete "resolved command" in the C2 counterexample). -/
def resolvedLogin : CommandParser :=
  (registeredCommandParser prepareParser "login").getD
    { prog := "", help := "", description := "", epilog := "" }

/-- A store holding exactly one anonymous profile — exactly what
`cmd_login` stores when invoked without credentials (flesh.py lines
204-210): credentials `None`, a cached description, the name and the URL. -/
def anonStore : ProfileStore :=
  [("dev",
    { credentials := Option.none, description := "old description",
      name := "dev", url := "http://x/" })]

/-- The store used by claim C5: exactly the profile "dev" with url
"http://x/" and credentials `None`. -/
def devStore : ProfileStore :=
  [("dev",
    { credentials := Option.none, description := "", name := "dev",
      url := "http://x/" })]

/-- First column of a `cmd_list_profiles` data row is the profile name,
whatever the lookup produced. -/
theorem profileRow_headD (nm : String) (o : Option Profile) :
    (profileRow nm o).headD "" = nm := by
  cases o with
  | none => rfl
  | some p =>
      unfold profileRow
      by_cases h : p.credentials = Option.none
      · simp [h]
      · simp [h]

/-! ### Theorems settling the claims -/

/-- C4 (confirmed): for every command type registered without an explicit
name, its registered name equals the implementing type's identifier with
underscores replaced by hyphens and lower-cased, with a leading "cmd-"
prefix stripped if present; an explicit name passed to `register` is used
instead.  Concretely, the eight commands `prepare_parser` registers (all
without explicit names) end up under the derived names. -/
theorem C4_naming_rule :
    (∀ clsName : String,
        registeredNameChoice clsName Option.none = claimDefaultName clsName)
    ∧ (∀ clsName n : String, registeredNameChoice clsName (some n) = n)
    ∧ registeredNames prepareParser =
        ["login", "logout", "list-profiles", "refresh-profiles",
         "list-nodes", "list-tags", "list-files", "list-users"] := by
  refine ⟨fun _ => rfl, fun _ _ => rfl, ?_⟩
  decide

/-- C5 (confirmed): dispatching `list-profiles` against a store containing
exactly the profile "dev" with url "http://x/" and credentials `None`
prints a table whose header row is ["Profile name", "URL"] and whose single
data row is ["dev", "http://x/", "(anonymous)"]. -/
theorem C5_list_profiles_table :
    cmd_list_profiles_output devStore =
      [["Profile name", "URL"], ["dev", "http://x/", "(anonymous)"]] := by
  decide

/-- C6 (confirmed): dispatching with no arguments (no subcommand path
resolves to a handler) produces exit code 2 and a usage/help message on the
diagnostic stream that contains each of the program's registered command
names (and the program does register commands). -/
theorem C6_no_arguments :
    processExitCode (Flesh.main prepareParser ParseOutcome.noCommand) = 2
    ∧ mainDiag (Flesh.main prepareParser ParseOutcome.noCommand) =
        prepareParser.helpLines ++ ["", "No arguments given."]
    ∧ (registeredNames prepareParser).all
        (fun nm =>
          (mainDiag (Flesh.main prepareParser ParseOutcome.noCommand)).contains
            nm)
    ∧ registeredNames prepareParser ≠ [] := by
  decide

/-- C8 (confirmed): a parser node's child-registration facility is created
on the first access of the `subparsers` property, every later access
returns that same facility and leaves the node unchanged, a freshly
constructed node holds no facility (so a node whose property is never
accessed never allocates one), and the inherited one-shot `add_subparsers`
entry point always fails. -/
theorem C8_lazy_subparsers :
    (∀ description epilog : String,
        (ArgumentParser.new description epilog).cachedSubparsers =
          Option.none)
    ∧ (∀ description epilog : String,
        ((ArgumentParser.new description epilog).subparsers).1 =
          newSubparsers)
    ∧ (∀ p : ArgumentParser,
        (p.subparsers.2).cachedSubparsers = some p.subparsers.1)
    ∧ (∀ p : ArgumentParser,
        (p.subparsers.2).subparsers = (p.subparsers.1, p.subparsers.2))
    ∧ (∀ p : ArgumentParser,
        p.add_subparsers = Except.error "add_subparsers has been disabled")
    := by
  refine ⟨fun _ _ => rfl, fun _ _ => rfl, ?_, ?_, fun _ => rfl⟩
  · intro p
    cases h : p.cachedSubparsers <;>
      simp [ArgumentParser.subparsers, h]
  · intro p
    cases h : p.cachedSubparsers <;>
      simp [ArgumentParser.subparsers, h]

/-- C9 (confirmed): `check_valid_apikey` returns `True` for every
combination of url, credentials and insecure inputs, so in `cmd_login` the
branch that terminates with "The MAAS server rejected your API key." is
unreachable whenever credentials are supplied. -/
theorem C9_apikey_stub :
    (∀ (url : String) (credentials : Credentials) (insecure : Bool),
        check_valid_apikey url credentials insecure = true)
    ∧ (∀ (url : String) (insecure : Bool) (c : Credentials),
        cmd_login_check url insecure (some c) ≠
          LoginCheck.exitWith "The MAAS server rejected your API key.") := by
  refine ⟨fun _ _ _ => rfl, ?_⟩
  intro url insecure c
  simp [cmd_login_check, check_valid_apikey]

/-- C10 (confirmed): every listing command prints its data rows in
ascending sorted order — `list-profiles` orders its rows by profile name,
and `list-nodes`, `list-tags`, `list-files` and `list-users` each sort
their body rows by the first column (hostname, tag name, file name, user
name) before printing; in each case the sorted body is a permutation of the
rows built from the input. -/
theorem C10_listing_sorted :
    (∀ config : ProfileStore,
        List.Sorted rowLES (cmd_list_profiles_data config)
        ∧ List.Perm (cmd_list_profiles_data config)
            ((config.map Prod.fst).map
              (fun nm => profileRow nm (storeRead config nm))))
    ∧ (∀ (colorize : String → String) (nodes : List Node),
        List.Sorted rowLE (cmd_list_nodes_body colorize nodes)
        ∧ List.Perm (cmd_list_nodes_body colorize nodes)
            (nodes.map (nodeRow colorize)))
    ∧ (∀ tags : List Tag,
        List.Sorted rowLE (cmd_list_tags_body tags)
        ∧ List.Perm (cmd_list_tags_body tags) (tags.map tagRow))
    ∧ (∀ files : List RemoteFile,
        List.Sorted rowLE (cmd_list_files_body files)
        ∧ List.Perm (cmd_list_files_body files) (files.map fileRow))
    ∧ (∀ (colorize : String → String) (users : List User),
        List.Sorted rowLE (cmd_list_users_body colorize users)
        ∧ List.Perm (cmd_list_users_body colorize users)
            (users.map (userRow colorize))) := by
  refine ⟨?_, ?_, ?_, ?_, ?_⟩
  · intro config
    constructor
    · have hs := List.sorted_insertionSort (fun a b : String => a ≤ b)
        (config.map Prod.fst)
      show List.Pairwise rowLES _
      unfold cmd_list_profiles_data
      rw [List.pairwise_map]
      refine hs.imp ?_
      intro a b hab
      show (profileRow a (storeRead config a)).headD "" ≤
        (profileRow b (storeRead config b)).headD ""
      rw [profileRow_headD, profileRow_headD]
      exact hab
    · exact (List.perm_insertionSort _ _).map _
  · intro colorize nodes
    exact ⟨List.sorted_insertionSort rowLE _,
      (List.perm_insertionSort _ _)⟩
  · intro tags
    exact ⟨List.sorted_insertionSort rowLE _,
      (List.perm_insertionSort _ _)⟩
  · intro files
    exact ⟨List.sorted_insertionSort rowLE _,
      (List.perm_insertionSort _ _)⟩
  · intro colorize users
    exact ⟨List.sorted_insertionSort rowLE _,
      (List.perm_insertionSort _ _)⟩

/-- C1 counterexample: the claim as stated ("for every process invocation
... exit code ... 2 on ... any other unhandled failure raised by a
command") is false when the debug flag is supplied — the failure then
propagates out of `main` instead of being translated, and the process exit
status is 1, not 2. -/
theorem C1_debug_counterexample :
    Flesh.main prepareParser
        (ParseOutcome.command resolvedLogin true (HandlerOutcome.failure
          "boom")) =
      MainResult.raise "boom"
    ∧ processExitCode
        (Flesh.main prepareParser
          (ParseOutcome.command resolvedLogin true (HandlerOutcome.failure
            "boom"))) ≠ 2 := by
  decide

/-- C1 (amended): for every process invocation in which the debug flag is
not supplied, the exit code is 0 on success, 1 on user interruption, and 2
on a usage error or any other unhandled failure raised by a command; and no
command produces an exit code of its own for a failure — in particular the
only in-command exit/`SystemExit` formatting sites, in `cmd_login`'s
credential check, are unreachable. -/
theorem C1_exit_codes :
    (∀ (helpOfErring : List String) (msg : String),
        processExitCode
          (Flesh.main prepareParser
            (ParseOutcome.usageError helpOfErring msg)) = 2)
    ∧ processExitCode (Flesh.main prepareParser ParseOutcome.noCommand) = 2
    ∧ processExitCode (Flesh.main prepareParser ParseOutcome.interrupted) = 1
    ∧ (∀ (resolved : CommandParser) (debug : Bool),
        processExitCode
          (Flesh.main prepareParser
            (ParseOutcome.command resolved debug HandlerOutcome.success)) =
          0)
    ∧ (∀ (resolved : CommandParser) (debug : Bool),
        processExitCode
          (Flesh.main prepareParser
            (ParseOutcome.command resolved debug
              HandlerOutcome.keyboardInterrupt)) = 1)
    ∧ (∀ (resolved : CommandParser) (msg : String),
        processExitCode
          (Flesh.main prepareParser
            (ParseOutcome.command resolved false
              (HandlerOutcome.failure msg))) = 2)
    ∧ (∀ (url : String) (insecure : Bool)
          (credentials : Option Credentials),
        (cmd_login_check url insecure credentials).exits = false) := by
  refine ⟨fun _ _ => rfl, rfl, rfl, fun _ _ => rfl, fun _ _ => rfl,
    fun _ _ => rfl, ?_⟩
  intro url insecure credentials
  cases credentials with
  | none => rfl
  | some c => rfl

/-- C2 counterexample: the claim as stated is false in what it says is
printed — on an unhandled failure without the debug flag, the dispatcher
prints the help of the top-level parser (`parser.error` is called on the
root parser built by `prepare_parser`), not the resolved command's usage:
here the resolved command is `login`, and the printed diagnostic differs
from the one the claim describes. -/
theorem C2_root_help_counterexample :
    Flesh.main prepareParser
        (ParseOutcome.command resolvedLogin false (HandlerOutcome.failure
          "boom")) =
      MainResult.exit 2 (prepareParser.helpLines ++ ["", "boom"])
    ∧ mainDiag
        (Flesh.main prepareParser
          (ParseOutcome.command resolvedLogin false (HandlerOutcome.failure
            "boom"))) ≠
        resolvedLogin.helpLines ++ ["", "boom"] := by
  decide

/-- C2 (amended): when a handler raises an unhandled failure during
dispatch, if the debug flag was supplied the failure propagates (full
diagnostic detail for developer use); otherwise the dispatcher prints the
top-level program help — not the resolved command's usage — followed by a
blank line and a single-line description of the failure on the diagnostic
stream, and exits with code 2. -/
theorem C2_failure_translation :
    (∀ (resolved : CommandParser) (msg : String),
        Flesh.main prepareParser
            (ParseOutcome.command resolved true (HandlerOutcome.failure
              msg)) =
          MainResult.raise msg)
    ∧ (∀ (resolved : CommandParser) (msg : String),
        Flesh.main prepareParser
            (ParseOutcome.command resolved false (HandlerOutcome.failure
              msg)) =
          MainResult.exit 2 (prepareParser.helpLines ++ ["", msg])) :=
  ⟨fun _ _ => rfl, fun _ _ => rfl⟩

/-- C3 (code bug): `refresh-profiles` fails on any store holding an
anonymous profile — exactly what `cmd_login` stores when invoked without
credentials — because `cmd_refresh_profiles.__call__` star-unpacks the
stored credentials with `Credentials(*creds)`, which raises `TypeError`
when the stored credentials are `None`; the profile's capability
description is left un-refreshed, against the claim's (and the spec's)
"for every stored profile". -/
theorem C3_refresh_anonymous_bug :
    (cmd_refresh_profiles_call (fun _ _ => "refreshed description")
        anonStore).2 =
      some "TypeError: argument after * must be an iterable, not NoneType"
    ∧ (cmd_refresh_profiles_call (fun _ _ => "refreshed description")
        anonStore).1 = anonStore := by
  decide
